import Mathlib

/-!
Verification of the SCD30 I2C driver protocol layer (`src/scd30.rs`).

Bytes are modelled as natural numbers (a byte is a value `< 256`); the `u8`
arithmetic of the source (`<<` dropping the overflow bit, `&= 0xFF`) is made
explicit with `% 256` and `&&& 0xFF`.  IEEE-754 `f32` values produced by
`f32::from_be_bytes` are represented by their 32-bit big-endian bit pattern,
since the driver only moves bytes into the float's bit layout and never
computes with the float.

The transport collaborator (`LinuxI2CDevice`) is modelled by an oracle: a
boolean saying whether the single `write` of an operation succeeds, and an
`Option (List Nat)` giving the bytes delivered by the single `read` (or
`none` for a read error).  Each operation additionally returns the trace of
bus actions it performed, so that "no read is attempted" is expressible.
-/

namespace Scd30

/-- One iteration of the inner loop of `Scd30::crc8` (`src/scd30.rs:84-91`):
shift the 8-bit remainder left (the `u8` shift drops the overflow bit, hence
`% 256`), XOR the polynomial `0x31` when the high bit was set, then the
(redundant) `rem &= 0xFF`. -/
def crcRound (rem : Nat) : Nat :=
  let rem1 := if rem &&& 0x80 ≠ 0 then ((rem <<< 1) % 256) ^^^ 0x31 else (rem <<< 1) % 256
  rem1 &&& 0xFF

/-- Processing of one message byte in `Scd30::crc8`: XOR the byte into the
remainder, then run eight rounds. -/
def crcStep (rem byte : Nat) : Nat :=
  crcRound^[8] (rem ^^^ byte)

/-- `Scd30::crc8` (`src/scd30.rs:79-94`): Sensirion CRC-8, polynomial `0x31`,
initial remainder `0xFF`, no final XOR. -/
def crc8 (message : List Nat) : Nat :=
  message.foldl crcStep 0xFF

/-- `Scd30::check_crc_in_bytes` (`src/scd30.rs:101-107`): on a 6-byte slice,
check the checksum byte of each of the two 3-byte word groups. -/
def check_crc_in_bytes (co2 : List Nat) : Bool :=
  let first_crc := crc8 [co2.getD 0 0, co2.getD 1 0]
  let second_crc := crc8 [co2.getD 3 0, co2.getD 4 0]
  (first_crc == co2.getD 2 0) && (second_crc == co2.getD 5 0)

/-- `u16::from_be_bytes([a, b])`. -/
def u16_from_be (a b : Nat) : Nat := a * 256 + b

/-- `u16::to_be_bytes` of a 16-bit value: high byte, then low byte. -/
def u16_to_be (v : Nat) : List Nat := [(v >>> 8) % 256, v % 256]

/-- `f32::from_be_bytes([b0, b1, b2, b3])`, represented by the 32-bit
big-endian bit pattern of the float. -/
def f32_from_be_bytes (b0 b1 b2 b3 : Nat) : Nat :=
  ((b0 * 256 + b1) * 256 + b2) * 256 + b3

/-- The error enum `Scd30Error` (`src/scd30.rs:22-31`). -/
inductive Scd30Error where
  | Io
  | ChecksumError
  | ComunicationError
deriving DecidableEq, Repr

/-- A bus action performed by an operation: a raw write of bytes, or a raw
read of a fixed-size buffer. -/
inductive I2CAction where
  | write (bytes : List Nat)
  | read (len : Nat)
deriving DecidableEq, Repr

/-- Whether a bus action is a read. -/
def I2CAction.isRead : I2CAction → Bool
  | .read _ => true
  | .write _ => false

/-- The word-group decode used by the scalar-register reads
(`src/scd30.rs:123-127` inside `check_firmware`, and identically in
`check_altitude`, `check_temperature_offset`, `get_forced_value`): accept a
3-byte group iff its third byte equals the CRC-8 of the first two, returning
the big-endian 16-bit value of the data bytes. -/
def decodeWordGroup (d : List Nat) : Except Scd30Error Nat :=
  if d.getD 2 0 = crc8 [d.getD 0 0, d.getD 1 0] then
    .ok (u16_from_be (d.getD 0 0) (d.getD 1 0))
  else
    .error .ChecksumError

/-- A valid 3-byte word group for a 16-bit value: big-endian data bytes
followed by their CRC-8. -/
def validWordGroup (v : Nat) : List Nat :=
  u16_to_be v ++ [crc8 (u16_to_be v)]

/-- `Scd30::check_firmware` (`src/scd30.rs:113-135`), over the transport
oracle: write `[0xd1, 0x00]`; on write success read 3 bytes and decode the
word group; map transport failures to `ComunicationError`. -/
def check_firmware (wOk : Bool) (rRes : Option (List Nat)) :
    Except Scd30Error Nat × List I2CAction :=
  let buffer : List Nat := [0xd1, 0x00]
  if wOk then
    match rRes with
    | some data_buffer =>
        (if data_buffer.getD 2 0 = crc8 [data_buffer.getD 0 0, data_buffer.getD 1 0] then
          .ok (u16_from_be (data_buffer.getD 0 0) (data_buffer.getD 1 0))
        else
          .error .ChecksumError,
         [.write buffer, .read 3])
    | none => (.error .ComunicationError, [.write buffer, .read 3])
  else
    (.error .ComunicationError, [.write buffer])

/-- `Scd30::trigger_cont_measurements` (`src/scd30.rs:141-151`): write the
fixed 5-byte frame `[0x00, 0x10, 0x00, 0x00, 0x81]`; no read. -/
def trigger_cont_measurements (wOk : Bool) :
    Except Scd30Error Unit × List I2CAction :=
  let buffer : List Nat := [0x00, 0x10, 0x00, 0x00, 0x81]
  if wOk then (.ok (), [.write buffer])
  else (.error .ComunicationError, [.write buffer])

/-- `Scd30::stop_cont_measurements` (`src/scd30.rs:157-167`): write
`[0x01, 0x01]`; no read. -/
def stop_cont_measurements (wOk : Bool) :
    Except Scd30Error Unit × List I2CAction :=
  let buffer : List Nat := [0x01, 0x01]
  if wOk then (.ok (), [.write buffer])
  else (.error .ComunicationError, [.write buffer])

/-- `Scd30::set_measurements_interval` (`src/scd30.rs:172-184`): write the
opcode `[0x46, 0x00]`, the big-endian bytes of `seconds` and their CRC-8;
no read. -/
def set_measurements_interval (seconds : Nat) (wOk : Bool) :
    Except Scd30Error Unit × List I2CAction :=
  let time_in_bytes := u16_to_be seconds
  let checksum := crc8 [time_in_bytes.getD 0 0, time_in_bytes.getD 1 0]
  let buffer : List Nat :=
    [0x46, 0x00, time_in_bytes.getD 0 0, time_in_bytes.getD 1 0, checksum]
  if wOk then (.ok (), [.write buffer])
  else (.error .ComunicationError, [.write buffer])

/-- `Scd30::get_data_ready` (`src/scd30.rs:189-213`): write `[0x02, 0x02]`,
read 3 bytes, validate the checksum, and return whether the low data byte
is `0x01`. -/
def get_data_ready (wOk : Bool) (rRes : Option (List Nat)) :
    Except Scd30Error Bool × List I2CAction :=
  let buffer : List Nat := [0x02, 0x02]
  if wOk then
    match rRes with
    | some data_buffer =>
        (if crc8 [data_buffer.getD 0 0, data_buffer.getD 1 0] = data_buffer.getD 2 0 then
          if data_buffer.getD 1 0 = 0x01 then .ok true else .ok false
        else
          .error .ChecksumError,
         [.write buffer, .read 3])
    | none => (.error .ComunicationError, [.write buffer, .read 3])
  else
    (.error .ComunicationError, [.write buffer])

/-- `Scd30::get_measurements` (`src/scd30.rs:218-264`): write `[0x03, 0x00]`,
read 18 bytes, split them into three 6-byte channels, validate each channel
with `check_crc_in_bytes`, and reassemble each `f32` big-endian from bytes
0, 1, 3, 4 of its channel. -/
def get_measurements (wOk : Bool) (rRes : Option (List Nat)) :
    Except Scd30Error (Nat × Nat × Nat) × List I2CAction :=
  let buffer : List Nat := [0x03, 0x00]
  if wOk then
    match rRes with
    | some data_buffer =>
        let co2_measurement := data_buffer.take 6
        let temp_measurement := (data_buffer.drop 6).take 6
        let rh_measurement := (data_buffer.drop 12).take 6
        (if check_crc_in_bytes co2_measurement
            && check_crc_in_bytes temp_measurement
            && check_crc_in_bytes rh_measurement then
          .ok
            (f32_from_be_bytes (co2_measurement.getD 0 0) (co2_measurement.getD 1 0)
              (co2_measurement.getD 3 0) (co2_measurement.getD 4 0),
             f32_from_be_bytes (temp_measurement.getD 0 0) (temp_measurement.getD 1 0)
              (temp_measurement.getD 3 0) (temp_measurement.getD 4 0),
             f32_from_be_bytes (rh_measurement.getD 0 0) (rh_measurement.getD 1 0)
              (rh_measurement.getD 3 0) (rh_measurement.getD 4 0))
        else
          .error .ChecksumError,
         [.write buffer, .read 18])
    | none => (.error .ComunicationError, [.write buffer, .read 18])
  else
    (.error .ComunicationError, [.write buffer])

/-- `Scd30::get_self_calibration_status` (`src/scd30.rs:266-290`): write
`[0x53, 0x06]`, read 3 bytes, validate the checksum, return whether the low
data byte is `0x01`. -/
def get_self_calibration_status (wOk : Bool) (rRes : Option (List Nat)) :
    Except Scd30Error Bool × List I2CAction :=
  let buffer : List Nat := [0x53, 0x06]
  if wOk then
    match rRes with
    | some data_buffer =>
        (if crc8 [data_buffer.getD 0 0, data_buffer.getD 1 0] = data_buffer.getD 2 0 then
          if data_buffer.getD 1 0 = 0x01 then .ok true else .ok false
        else
          .error .ChecksumError,
         [.write buffer, .read 3])
    | none => (.error .ComunicationError, [.write buffer, .read 3])
  else
    (.error .ComunicationError, [.write buffer])

/-- `Scd30::set_self_calibration` (`src/scd30.rs:293-317`): byte-for-byte the
same body as `get_self_calibration_status`, including the `[0x53, 0x06]`
write. -/
def set_self_calibration (wOk : Bool) (rRes : Option (List Nat)) :
    Except Scd30Error Bool × List I2CAction :=
  let buffer : List Nat := [0x53, 0x06]
  if wOk then
    match rRes with
    | some data_buffer =>
        (if crc8 [data_buffer.getD 0 0, data_buffer.getD 1 0] = data_buffer.getD 2 0 then
          if data_buffer.getD 1 0 = 0x01 then .ok true else .ok false
        else
          .error .ChecksumError,
         [.write buffer, .read 3])
    | none => (.error .ComunicationError, [.write buffer, .read 3])
  else
    (.error .ComunicationError, [.write buffer])

/-- `Scd30::soft_reset` (`src/scd30.rs:322-333`): write `[0xd3, 0x04]`;
no read. -/
def soft_reset (wOk : Bool) : Except Scd30Error Unit × List I2CAction :=
  let buffer : List Nat := [0xd3, 0x04]
  if wOk then (.ok (), [.write buffer])
  else (.error .ComunicationError, [.write buffer])

/-- `Scd30::check_altitude` (`src/scd30.rs:339-361`): write `[0x51, 0x02]`,
read 3 bytes, decode the word group. -/
def check_altitude (wOk : Bool) (rRes : Option (List Nat)) :
    Except Scd30Error Nat × List I2CAction :=
  let buffer : List Nat := [0x51, 0x02]
  if wOk then
    match rRes with
    | some data_buffer =>
        (if data_buffer.getD 2 0 = crc8 [data_buffer.getD 0 0, data_buffer.getD 1 0] then
          .ok (u16_from_be (data_buffer.getD 0 0) (data_buffer.getD 1 0))
        else
          .error .ChecksumError,
         [.write buffer, .read 3])
    | none => (.error .ComunicationError, [.write buffer, .read 3])
  else
    (.error .ComunicationError, [.write buffer])

/-- `Scd30::set_altitude` (`src/scd30.rs:368-386`): write the opcode
`[0x51, 0x02]`, the big-endian bytes of `altitude` and their CRC-8;
no read. -/
def set_altitude (altitude : Nat) (wOk : Bool) :
    Except Scd30Error Unit × List I2CAction :=
  let altitude_in_bytes := u16_to_be altitude
  let checksum := crc8 [altitude_in_bytes.getD 0 0, altitude_in_bytes.getD 1 0]
  let buffer : List Nat :=
    [0x51, 0x02, altitude_in_bytes.getD 0 0, altitude_in_bytes.getD 1 0, checksum]
  if wOk then (.ok (), [.write buffer])
  else (.error .ComunicationError, [.write buffer])

/-- `Scd30::check_temperature_offset` (`src/scd30.rs:392-414`): write
`[0x54, 0x03]`, read 3 bytes, decode the word group. -/
def check_temperature_offset (wOk : Bool) (rRes : Option (List Nat)) :
    Except Scd30Error Nat × List I2CAction :=
  let buffer : List Nat := [0x54, 0x03]
  if wOk then
    match rRes with
    | some data_buffer =>
        (if data_buffer.getD 2 0 = crc8 [data_buffer.getD 0 0, data_buffer.getD 1 0] then
          .ok (u16_from_be (data_buffer.getD 0 0) (data_buffer.getD 1 0))
        else
          .error .ChecksumError,
         [.write buffer, .read 3])
    | none => (.error .ComunicationError, [.write buffer, .read 3])
  else
    (.error .ComunicationError, [.write buffer])

/-- `Scd30::set_temperature_offset` (`src/scd30.rs:420-432`): write the
opcode `[0x54, 0x03]`, the big-endian bytes of `offset` and their CRC-8;
no read. -/
def set_temperature_offset (offset : Nat) (wOk : Bool) :
    Except Scd30Error Unit × List I2CAction :=
  let offset_in_bytes := u16_to_be offset
  let checksum := crc8 [offset_in_bytes.getD 0 0, offset_in_bytes.getD 1 0]
  let buffer : List Nat :=
    [0x54, 0x03, offset_in_bytes.getD 0 0, offset_in_bytes.getD 1 0, checksum]
  if wOk then (.ok (), [.write buffer])
  else (.error .ComunicationError, [.write buffer])

/-- `Scd30::get_forced_value` (`src/scd30.rs:438-460`): write `[0x52, 0x04]`,
read 3 bytes, decode the word group. -/
def get_forced_value (wOk : Bool) (rRes : Option (List Nat)) :
    Except Scd30Error Nat × List I2CAction :=
  let buffer : List Nat := [0x52, 0x04]
  if wOk then
    match rRes with
    | some data_buffer =>
        (if data_buffer.getD 2 0 = crc8 [data_buffer.getD 0 0, data_buffer.getD 1 0] then
          .ok (u16_from_be (data_buffer.getD 0 0) (data_buffer.getD 1 0))
        else
          .error .ChecksumError,
         [.write buffer, .read 3])
    | none => (.error .ComunicationError, [.write buffer, .read 3])
  else
    (.error .ComunicationError, [.write buffer])

/-- `Scd30::set_force_recalibration_value` (`src/scd30.rs:466-484`): write
the opcode `[0x52, 0x04]`, the big-endian bytes of `forced_value` and their
CRC-8; no read. -/
def set_force_recalibration_value (forced_value : Nat) (wOk : Bool) :
    Except Scd30Error Unit × List I2CAction :=
  let forced_value_in_bytes := u16_to_be forced_value
  let checksum := crc8 [forced_value_in_bytes.getD 0 0, forced_value_in_bytes.getD 1 0]
  let buffer : List Nat :=
    [0x52, 0x04, forced_value_in_bytes.getD 0 0, forced_value_in_bytes.getD 1 0, checksum]
  if wOk then (.ok (), [.write buffer])
  else (.error .ComunicationError, [.write buffer])

/-! ## Helper lemmas -/

theorem crcRound_lt (r : Nat) : crcRound r < 256 := by
  have h : crcRound r
      = (if r &&& 0x80 ≠ 0 then ((r <<< 1) % 256) ^^^ 0x31 else (r <<< 1) % 256) &&& 0xFF := rfl
  have h2 : crcRound r ≤ 0xFF := by rw [h]; exact Nat.and_le_right
  omega

theorem iterate_crcRound_lt (n r : Nat) : crcRound^[n + 1] r < 256 := by
  rw [Function.iterate_succ_apply']
  exact crcRound_lt _

theorem crcStep_lt (rem byte : Nat) : crcStep rem byte < 256 :=
  iterate_crcRound_lt 7 _

theorem foldl_crcStep_lt (l : List Nat) : ∀ init : Nat, init < 256 →
    List.foldl crcStep init l < 256 := by
  induction l with
  | nil => intro init h; exact h
  | cons b rest ih => intro init _; exact ih _ (crcStep_lt init b)

theorem xor_lt_256 {a b : Nat} (ha : a < 256) (hb : b < 256) : a ^^^ b < 256 := by
  have h256 : (256 : Nat) = 2 ^ 8 := by norm_num
  rw [h256] at ha hb ⊢
  exact Nat.xor_lt_two_pow ha hb

theorem crc8_pair (p q : Nat) :
    crc8 [p, q] = crcRound^[8] (crcRound^[8] (0xFF ^^^ p) ^^^ q) := rfl

set_option maxRecDepth 4000 in
set_option maxHeartbeats 2000000 in
/-- Applying eight CRC rounds to a value with one bit flipped never gives the
same remainder (checked exhaustively over the 8-bit state space). -/
theorem core_flip_ne_fin :
    ∀ z : Fin 256, ∀ k : Fin 8,
      crcRound^[8] ((z : Nat) ^^^ (1 <<< (k : Nat))) ≠ crcRound^[8] (z : Nat) := by decide

set_option maxRecDepth 4000 in
set_option maxHeartbeats 2000000 in
/-- Eight CRC rounds commute with XOR-ing in a single-bit difference
(checked exhaustively over the 8-bit state space). -/
theorem core_push_fin :
    ∀ x : Fin 256, ∀ k : Fin 8,
      crcRound^[8] ((x : Nat) ^^^ (1 <<< (k : Nat)))
        = crcRound^[8] (x : Nat) ^^^ crcRound^[8] (1 <<< (k : Nat)) := by decide

set_option maxRecDepth 4000 in
set_option maxHeartbeats 2000000 in
/-- Applying eight CRC rounds to a value XOR-ed with the image of a single
bit never gives the same remainder (checked exhaustively). -/
theorem core_flip2_ne_fin :
    ∀ z : Fin 256, ∀ k : Fin 8,
      crcRound^[8] ((z : Nat) ^^^ crcRound^[8] (1 <<< (k : Nat))) ≠ crcRound^[8] (z : Nat) := by
  decide

theorem core_flip_ne {z k : Nat} (hz : z < 256) (hk : k < 8) :
    crcRound^[8] (z ^^^ (1 <<< k)) ≠ crcRound^[8] z :=
  core_flip_ne_fin ⟨z, hz⟩ ⟨k, hk⟩

theorem core_push {x k : Nat} (hx : x < 256) (hk : k < 8) :
    crcRound^[8] (x ^^^ (1 <<< k)) = crcRound^[8] x ^^^ crcRound^[8] (1 <<< k) :=
  core_push_fin ⟨x, hx⟩ ⟨k, hk⟩

theorem core_flip2_ne {z k : Nat} (hz : z < 256) (hk : k < 8) :
    crcRound^[8] (z ^^^ crcRound^[8] (1 <<< k)) ≠ crcRound^[8] z :=
  core_flip2_ne_fin ⟨z, hz⟩ ⟨k, hk⟩

theorem getD_take (l : List Nat) (n i : Nat) (h : i < n) :
    (l.take n).getD i 0 = l.getD i 0 := by
  simp [List.getD_eq_getElem?_getD, List.getElem?_take, h]

theorem getD_drop (l : List Nat) (n i : Nat) :
    (l.drop n).getD i 0 = l.getD (n + i) 0 := by
  simp [List.getD_eq_getElem?_getD, List.getElem?_drop]

theorem u16_roundtrip (v : Nat) (hv : v < 65536) :
    u16_from_be ((v >>> 8) % 256) (v % 256) = v := by
  have h8 : v >>> 8 = v / 256 := by
    rw [Nat.shiftRight_eq_div_pow]
  rw [u16_from_be, h8]
  omega

theorem shiftLeft_one_ne_zero (k : Nat) : (1 <<< k) ≠ 0 := by
  rw [Nat.one_shiftLeft]; positivity

/-! ## Claim theorems -/

/-- C1 (counterexample): the spec's second reference vector is wrong on the
code: `crc8 [0x01, 0x01]` is not `0x0F`. -/
theorem crc8_spec_vectors_false :
    ¬ (crc8 [0x00, 0x00] = 0x81 ∧ crc8 [0x01, 0x01] = 0x0F) := by decide

/-- C1 (amended): the implemented Sensirion CRC-8 gives
`crc8 [0x00, 0x00] = 0x81` and `crc8 [0x01, 0x01] = 0x44` (the latter
replacing the spec's incorrect `0x0F`). -/
theorem crc8_reference_vectors :
    crc8 [0x00, 0x00] = 0x81 ∧ crc8 [0x01, 0x01] = 0x44 := by decide

/-- C9: `crc8` is total over byte sequences of every length: it returns the
initial remainder `0xFF` on the empty input, every per-byte step keeps the
remainder within 8 bits, and so does the final result for any message. -/
theorem crc8_total_and_bounded :
    crc8 [] = 0xFF ∧ (∀ rem byte, crcStep rem byte < 256) ∧
      ∀ message : List Nat, crc8 message < 256 := by
  refine ⟨rfl, crcStep_lt, fun message => ?_⟩
  exact foldl_crcStep_lt message 0xFF (by norm_num)

/-- C2: decoding the 3-byte group formed by the big-endian encoding of a
16-bit value followed by its CRC-8 succeeds and returns the value, both for
the stand-alone word-group decode and for `check_firmware` fed that group. -/
theorem decodeWordGroup_roundtrip (v : Nat) (hv : v < 65536) :
    decodeWordGroup (validWordGroup v) = .ok v ∧
      (check_firmware true (some (validWordGroup v))).1 = .ok v := by
  have hfw : (check_firmware true (some (validWordGroup v))).1
      = decodeWordGroup (validWordGroup v) := rfl
  rw [hfw, and_self]
  have hgroup : validWordGroup v
      = [(v >>> 8) % 256, v % 256, crc8 [(v >>> 8) % 256, v % 256]] := rfl
  rw [hgroup, decodeWordGroup]
  simp only [List.getD_cons_zero, List.getD_cons_succ]
  rw [if_pos trivial, u16_roundtrip v hv]

/-- C2 witness at `v = 0xBEEF`. -/
theorem decodeWordGroup_roundtrip_witness :
    0xBEEF < 65536 ∧
      (decodeWordGroup (validWordGroup 0xBEEF) = .ok 0xBEEF ∧
        (check_firmware true (some (validWordGroup 0xBEEF))).1 = .ok 0xBEEF) :=
  ⟨by norm_num, decodeWordGroup_roundtrip 0xBEEF (by norm_num)⟩

/-- C7: flipping any single bit (bit `k` of byte `j`) of the valid 3-byte
word group of a 16-bit value yields a group that the word-group decode
rejects with `ChecksumError`. -/
theorem flip_bit_rejected (v j k : Nat) (_hv : v < 65536) (hj : j < 3) (hk : k < 8) :
    decodeWordGroup
        ((validWordGroup v).set j ((validWordGroup v).getD j 0 ^^^ (1 <<< k)))
      = .error .ChecksumError := by
  have hgroup : validWordGroup v
      = [(v >>> 8) % 256, v % 256, crc8 [(v >>> 8) % 256, v % 256]] := rfl
  set a := (v >>> 8) % 256 with ha_def
  set b := v % 256 with hb_def
  have ha : a < 256 := Nat.mod_lt _ (by norm_num)
  have hb : b < 256 := Nat.mod_lt _ (by norm_num)
  have hxa : 0xFF ^^^ a < 256 := xor_lt_256 (by norm_num) ha
  have hz : crcRound^[8] (0xFF ^^^ a) ^^^ b < 256 :=
    xor_lt_256 (iterate_crcRound_lt 7 _) hb
  interval_cases j
  · -- bit flip in the high data byte
    rw [hgroup]
    show decodeWordGroup [a ^^^ (1 <<< k), b, crc8 [a, b]] = .error .ChecksumError
    have hne : crc8 [a, b] ≠ crc8 [a ^^^ (1 <<< k), b] := by
      rw [crc8_pair, crc8_pair, ← Nat.xor_assoc 0xFF a (1 <<< k), core_push hxa hk,
        Nat.xor_assoc, Nat.xor_comm (crcRound^[8] (1 <<< k)) b, ← Nat.xor_assoc]
      exact (core_flip2_ne hz hk).symm
    rw [decodeWordGroup]
    simp only [List.getD_cons_zero, List.getD_cons_succ]
    rw [if_neg hne]
  · -- bit flip in the low data byte
    rw [hgroup]
    show decodeWordGroup [a, b ^^^ (1 <<< k), crc8 [a, b]] = .error .ChecksumError
    have hne : crc8 [a, b] ≠ crc8 [a, b ^^^ (1 <<< k)] := by
      rw [crc8_pair, crc8_pair, ← Nat.xor_assoc]
      exact (core_flip_ne hz hk).symm
    rw [decodeWordGroup]
    simp only [List.getD_cons_zero, List.getD_cons_succ]
    rw [if_neg hne]
  · -- bit flip in the checksum byte
    rw [hgroup]
    show decodeWordGroup [a, b, crc8 [a, b] ^^^ (1 <<< k)] = .error .ChecksumError
    have hne : crc8 [a, b] ^^^ (1 <<< k) ≠ crc8 [a, b] := by
      intro h
      have h2 : crc8 [a, b] ^^^ (1 <<< k) = crc8 [a, b] ^^^ 0 := by
        rw [Nat.xor_zero]; exact h
      exact shiftLeft_one_ne_zero k (Nat.xor_right_inj.mp h2)
    rw [decodeWordGroup]
    simp only [List.getD_cons_zero, List.getD_cons_succ]
    rw [if_neg hne]

/-- C7 witness at `v = 0xBEEF`, byte 1, bit 3. -/
theorem flip_bit_rejected_witness :
    0xBEEF < 65536 ∧ 1 < 3 ∧ 3 < 8 ∧
      decodeWordGroup
          ((validWordGroup 0xBEEF).set 1 ((validWordGroup 0xBEEF).getD 1 0 ^^^ (1 <<< 3)))
        = .error .ChecksumError :=
  ⟨by norm_num, by norm_num, by norm_num,
    flip_bit_rejected 0xBEEF 1 3 (by norm_num) (by norm_num) (by norm_num)⟩

/-- Reduction of the read branch of `check_firmware` to its word-group
decision. -/
theorem check_firmware_read_eq (d : List Nat) :
    (check_firmware true (some d)).1 =
      if d.getD 2 0 = crc8 [d.getD 0 0, d.getD 1 0] then
        .ok (u16_from_be (d.getD 0 0) (d.getD 1 0))
      else .error .ChecksumError := rfl

/-- Reduction of the read branch of `get_data_ready`. -/
theorem get_data_ready_read_eq (d : List Nat) :
    (get_data_ready true (some d)).1 =
      if crc8 [d.getD 0 0, d.getD 1 0] = d.getD 2 0 then
        (if d.getD 1 0 = 0x01 then .ok true else .ok false)
      else .error .ChecksumError := rfl

/-- Reduction of the read branch of `get_self_calibration_status`. -/
theorem get_self_calibration_status_read_eq (d : List Nat) :
    (get_self_calibration_status true (some d)).1 =
      if crc8 [d.getD 0 0, d.getD 1 0] = d.getD 2 0 then
        (if d.getD 1 0 = 0x01 then .ok true else .ok false)
      else .error .ChecksumError := rfl

/-- Reduction of the read branch of `check_altitude`. -/
theorem check_altitude_read_eq (d : List Nat) :
    (check_altitude true (some d)).1 =
      if d.getD 2 0 = crc8 [d.getD 0 0, d.getD 1 0] then
        .ok (u16_from_be (d.getD 0 0) (d.getD 1 0))
      else .error .ChecksumError := rfl

/-- Reduction of the read branch of `check_temperature_offset`. -/
theorem check_temperature_offset_read_eq (d : List Nat) :
    (check_temperature_offset true (some d)).1 =
      if d.getD 2 0 = crc8 [d.getD 0 0, d.getD 1 0] then
        .ok (u16_from_be (d.getD 0 0) (d.getD 1 0))
      else .error .ChecksumError := rfl

/-- Reduction of the read branch of `get_forced_value`. -/
theorem get_forced_value_read_eq (d : List Nat) :
    (get_forced_value true (some d)).1 =
      if d.getD 2 0 = crc8 [d.getD 0 0, d.getD 1 0] then
        .ok (u16_from_be (d.getD 0 0) (d.getD 1 0))
      else .error .ChecksumError := rfl

/-- Reduction of the read branch of `get_measurements`. -/
theorem get_measurements_read_eq (d : List Nat) :
    (get_measurements true (some d)).1 =
      if check_crc_in_bytes (d.take 6)
          && check_crc_in_bytes ((d.drop 6).take 6)
          && check_crc_in_bytes ((d.drop 12).take 6) then
        .ok
          (f32_from_be_bytes ((d.take 6).getD 0 0) ((d.take 6).getD 1 0)
            ((d.take 6).getD 3 0) ((d.take 6).getD 4 0),
           f32_from_be_bytes (((d.drop 6).take 6).getD 0 0) (((d.drop 6).take 6).getD 1 0)
            (((d.drop 6).take 6).getD 3 0) (((d.drop 6).take 6).getD 4 0),
           f32_from_be_bytes (((d.drop 12).take 6).getD 0 0) (((d.drop 12).take 6).getD 1 0)
            (((d.drop 12).take 6).getD 3 0) (((d.drop 12).take 6).getD 4 0))
      else .error .ChecksumError := rfl

/-- C3: given a successful write and read, `get_measurements` returns `Ok`
iff every one of the six 3-byte word groups in the 18-byte response passes
its checksum independently; on success the three results are assembled
big-endian from bytes 0, 1, 3, 4 of the corresponding 6-byte channel, and
otherwise the result is `ChecksumError`. -/
theorem get_measurements_spec (d : List Nat) :
    (get_measurements true (some d)).1 =
      if crc8 [d.getD 0 0, d.getD 1 0] = d.getD 2 0 ∧
          crc8 [d.getD 3 0, d.getD 4 0] = d.getD 5 0 ∧
          crc8 [d.getD 6 0, d.getD 7 0] = d.getD 8 0 ∧
          crc8 [d.getD 9 0, d.getD 10 0] = d.getD 11 0 ∧
          crc8 [d.getD 12 0, d.getD 13 0] = d.getD 14 0 ∧
          crc8 [d.getD 15 0, d.getD 16 0] = d.getD 17 0 then
        .ok
          (f32_from_be_bytes (d.getD 0 0) (d.getD 1 0) (d.getD 3 0) (d.getD 4 0),
           f32_from_be_bytes (d.getD 6 0) (d.getD 7 0) (d.getD 9 0) (d.getD 10 0),
           f32_from_be_bytes (d.getD 12 0) (d.getD 13 0) (d.getD 15 0) (d.getD 16 0))
      else .error .ChecksumError := by
  have t0 : (d.take 6).getD 0 0 = d.getD 0 0 := getD_take d 6 0 (by norm_num)
  have t1 : (d.take 6).getD 1 0 = d.getD 1 0 := getD_take d 6 1 (by norm_num)
  have t2 : (d.take 6).getD 2 0 = d.getD 2 0 := getD_take d 6 2 (by norm_num)
  have t3 : (d.take 6).getD 3 0 = d.getD 3 0 := getD_take d 6 3 (by norm_num)
  have t4 : (d.take 6).getD 4 0 = d.getD 4 0 := getD_take d 6 4 (by norm_num)
  have t5 : (d.take 6).getD 5 0 = d.getD 5 0 := getD_take d 6 5 (by norm_num)
  have u0 : ((d.drop 6).take 6).getD 0 0 = d.getD 6 0 := by
    rw [getD_take _ 6 0 (by norm_num), getD_drop]
  have u1 : ((d.drop 6).take 6).getD 1 0 = d.getD 7 0 := by
    rw [getD_take _ 6 1 (by norm_num), getD_drop]
  have u2 : ((d.drop 6).take 6).getD 2 0 = d.getD 8 0 := by
    rw [getD_take _ 6 2 (by norm_num), getD_drop]
  have u3 : ((d.drop 6).take 6).getD 3 0 = d.getD 9 0 := by
    rw [getD_take _ 6 3 (by norm_num), getD_drop]
  have u4 : ((d.drop 6).take 6).getD 4 0 = d.getD 10 0 := by
    rw [getD_take _ 6 4 (by norm_num), getD_drop]
  have u5 : ((d.drop 6).take 6).getD 5 0 = d.getD 11 0 := by
    rw [getD_take _ 6 5 (by norm_num), getD_drop]
  have w0 : ((d.drop 12).take 6).getD 0 0 = d.getD 12 0 := by
    rw [getD_take _ 6 0 (by norm_num), getD_drop]
  have w1 : ((d.drop 12).take 6).getD 1 0 = d.getD 13 0 := by
    rw [getD_take _ 6 1 (by norm_num), getD_drop]
  have w2 : ((d.drop 12).take 6).getD 2 0 = d.getD 14 0 := by
    rw [getD_take _ 6 2 (by norm_num), getD_drop]
  have w3 : ((d.drop 12).take 6).getD 3 0 = d.getD 15 0 := by
    rw [getD_take _ 6 3 (by norm_num), getD_drop]
  have w4 : ((d.drop 12).take 6).getD 4 0 = d.getD 16 0 := by
    rw [getD_take _ 6 4 (by norm_num), getD_drop]
  have w5 : ((d.drop 12).take 6).getD 5 0 = d.getD 17 0 := by
    rw [getD_take _ 6 5 (by norm_num), getD_drop]
  rw [get_measurements_read_eq]
  by_cases hP : crc8 [d.getD 0 0, d.getD 1 0] = d.getD 2 0 ∧
      crc8 [d.getD 3 0, d.getD 4 0] = d.getD 5 0 ∧
      crc8 [d.getD 6 0, d.getD 7 0] = d.getD 8 0 ∧
      crc8 [d.getD 9 0, d.getD 10 0] = d.getD 11 0 ∧
      crc8 [d.getD 12 0, d.getD 13 0] = d.getD 14 0 ∧
      crc8 [d.getD 15 0, d.getD 16 0] = d.getD 17 0
  · have hB : (check_crc_in_bytes (d.take 6)
        && check_crc_in_bytes ((d.drop 6).take 6)
        && check_crc_in_bytes ((d.drop 12).take 6)) = true := by
      obtain ⟨p1, p2, p3, p4, p5, p6⟩ := hP
      simp only [check_crc_in_bytes, t0, t1, t2, t3, t4, t5, u0, u1, u2, u3, u4, u5,
        w0, w1, w2, w3, w4, w5, p1, p2, p3, p4, p5, p6, beq_self_eq_true, Bool.and_self]
    rw [if_pos hB, if_pos hP, t0, t1, t3, t4, u0, u1, u3, u4, w0, w1, w3, w4]
  · have hB : ¬ ((check_crc_in_bytes (d.take 6)
        && check_crc_in_bytes ((d.drop 6).take 6)
        && check_crc_in_bytes ((d.drop 12).take 6)) = true) := by
      intro hB
      apply hP
      simp only [check_crc_in_bytes, t0, t1, t2, t3, t4, t5, u0, u1, u2, u3, u4, u5,
        w0, w1, w2, w3, w4, w5, Bool.and_eq_true, beq_iff_eq] at hB
      tauto
    rw [if_neg hB, if_neg hP]

/-- C4: every write-then-read operation fails fast.  For each such operation:
a failed transport write yields `ComunicationError` with a trace containing
no read action; a failed transport read yields `ComunicationError`; and with
both transfers successful the result is `ChecksumError` exactly when
checksum validation fails. -/
theorem fail_fast_protocol :
    ((∀ r, check_firmware false r = (.error .ComunicationError, [.write [0xd1, 0x00]])) ∧
      (∀ r, ((check_firmware false r).2.all fun x => ! x.isRead) = true) ∧
      (check_firmware true none).1 = .error .ComunicationError ∧
      ∀ d, (check_firmware true (some d)).1 = .error .ChecksumError ↔
        ¬ d.getD 2 0 = crc8 [d.getD 0 0, d.getD 1 0]) ∧
    ((∀ r, get_data_ready false r = (.error .ComunicationError, [.write [0x02, 0x02]])) ∧
      (∀ r, ((get_data_ready false r).2.all fun x => ! x.isRead) = true) ∧
      (get_data_ready true none).1 = .error .ComunicationError ∧
      ∀ d, (get_data_ready true (some d)).1 = .error .ChecksumError ↔
        ¬ crc8 [d.getD 0 0, d.getD 1 0] = d.getD 2 0) ∧
    ((∀ r, get_measurements false r = (.error .ComunicationError, [.write [0x03, 0x00]])) ∧
      (∀ r, ((get_measurements false r).2.all fun x => ! x.isRead) = true) ∧
      (get_measurements true none).1 = .error .ComunicationError ∧
      ∀ d, (get_measurements true (some d)).1 = .error .ChecksumError ↔
        ¬ (check_crc_in_bytes (d.take 6)
            && check_crc_in_bytes ((d.drop 6).take 6)
            && check_crc_in_bytes ((d.drop 12).take 6)) = true) ∧
    ((∀ r, get_self_calibration_status false r
        = (.error .ComunicationError, [.write [0x53, 0x06]])) ∧
      (∀ r, ((get_self_calibration_status false r).2.all fun x => ! x.isRead) = true) ∧
      (get_self_calibration_status true none).1 = .error .ComunicationError ∧
      ∀ d, (get_self_calibration_status true (some d)).1 = .error .ChecksumError ↔
        ¬ crc8 [d.getD 0 0, d.getD 1 0] = d.getD 2 0) ∧
    ((∀ r, set_self_calibration false r = (.error .ComunicationError, [.write [0x53, 0x06]])) ∧
      (∀ r, ((set_self_calibration false r).2.all fun x => ! x.isRead) = true) ∧
      (set_self_calibration true none).1 = .error .ComunicationError ∧
      ∀ d, (set_self_calibration true (some d)).1 = .error .ChecksumError ↔
        ¬ crc8 [d.getD 0 0, d.getD 1 0] = d.getD 2 0) ∧
    ((∀ r, check_altitude false r = (.error .ComunicationError, [.write [0x51, 0x02]])) ∧
      (∀ r, ((check_altitude false r).2.all fun x => ! x.isRead) = true) ∧
      (check_altitude true none).1 = .error .ComunicationError ∧
      ∀ d, (check_altitude true (some d)).1 = .error .ChecksumError ↔
        ¬ d.getD 2 0 = crc8 [d.getD 0 0, d.getD 1 0]) ∧
    ((∀ r, check_temperature_offset false r
        = (.error .ComunicationError, [.write [0x54, 0x03]])) ∧
      (∀ r, ((check_temperature_offset false r).2.all fun x => ! x.isRead) = true) ∧
      (check_temperature_offset true none).1 = .error .ComunicationError ∧
      ∀ d, (check_temperature_offset true (some d)).1 = .error .ChecksumError ↔
        ¬ d.getD 2 0 = crc8 [d.getD 0 0, d.getD 1 0]) ∧
    ((∀ r, get_forced_value false r = (.error .ComunicationError, [.write [0x52, 0x04]])) ∧
      (∀ r, ((get_forced_value false r).2.all fun x => ! x.isRead) = true) ∧
      (get_forced_value true none).1 = .error .ComunicationError ∧
      ∀ d, (get_forced_value true (some d)).1 = .error .ChecksumError ↔
        ¬ d.getD 2 0 = crc8 [d.getD 0 0, d.getD 1 0]) := by
  refine ⟨⟨fun r => rfl, fun r => rfl, rfl, fun d => ?_⟩,
    ⟨fun r => rfl, fun r => rfl, rfl, fun d => ?_⟩,
    ⟨fun r => rfl, fun r => rfl, rfl, fun d => ?_⟩,
    ⟨fun r => rfl, fun r => rfl, rfl, fun d => ?_⟩,
    ⟨fun r => rfl, fun r => rfl, rfl, fun d => ?_⟩,
    ⟨fun r => rfl, fun r => rfl, rfl, fun d => ?_⟩,
    ⟨fun r => rfl, fun r => rfl, rfl, fun d => ?_⟩,
    ⟨fun r => rfl, fun r => rfl, rfl, fun d => ?_⟩⟩
  · rw [check_firmware_read_eq]
    by_cases h : d.getD 2 0 = crc8 [d.getD 0 0, d.getD 1 0]
    · rw [if_pos h]
      exact iff_of_false (fun hc => Except.noConfusion hc) (fun hn => hn h)
    · rw [if_neg h]
      exact iff_of_true rfl h
  · rw [get_data_ready_read_eq]
    by_cases h : crc8 [d.getD 0 0, d.getD 1 0] = d.getD 2 0
    · rw [if_pos h]
      have hne : ¬ ((if d.getD 1 0 = 0x01 then (Except.ok true : Except Scd30Error Bool)
          else .ok false) = .error .ChecksumError) := by
        by_cases h2 : d.getD 1 0 = 0x01
        · rw [if_pos h2]; exact fun hc => Except.noConfusion hc
        · rw [if_neg h2]; exact fun hc => Except.noConfusion hc
      exact iff_of_false hne (fun hn => hn h)
    · rw [if_neg h]
      exact iff_of_true rfl h
  · rw [get_measurements_read_eq]
    by_cases h : (check_crc_in_bytes (d.take 6)
        && check_crc_in_bytes ((d.drop 6).take 6)
        && check_crc_in_bytes ((d.drop 12).take 6)) = true
    · rw [if_pos h]
      exact iff_of_false (fun hc => Except.noConfusion hc) (fun hn => hn h)
    · rw [if_neg h]
      exact iff_of_true rfl h
  · rw [get_self_calibration_status_read_eq]
    by_cases h : crc8 [d.getD 0 0, d.getD 1 0] = d.getD 2 0
    · rw [if_pos h]
      have hne : ¬ ((if d.getD 1 0 = 0x01 then (Except.ok true : Except Scd30Error Bool)
          else .ok false) = .error .ChecksumError) := by
        by_cases h2 : d.getD 1 0 = 0x01
        · rw [if_pos h2]; exact fun hc => Except.noConfusion hc
        · rw [if_neg h2]; exact fun hc => Except.noConfusion hc
      exact iff_of_false hne (fun hn => hn h)
    · rw [if_neg h]
      exact iff_of_true rfl h
  · have heq : (set_self_calibration true (some d)).1
        = (get_self_calibration_status true (some d)).1 := rfl
    rw [heq, get_self_calibration_status_read_eq]
    by_cases h : crc8 [d.getD 0 0, d.getD 1 0] = d.getD 2 0
    · rw [if_pos h]
      have hne : ¬ ((if d.getD 1 0 = 0x01 then (Except.ok true : Except Scd30Error Bool)
          else .ok false) = .error .ChecksumError) := by
        by_cases h2 : d.getD 1 0 = 0x01
        · rw [if_pos h2]; exact fun hc => Except.noConfusion hc
        · rw [if_neg h2]; exact fun hc => Except.noConfusion hc
      exact iff_of_false hne (fun hn => hn h)
    · rw [if_neg h]
      exact iff_of_true rfl h
  · rw [check_altitude_read_eq]
    by_cases h : d.getD 2 0 = crc8 [d.getD 0 0, d.getD 1 0]
    · rw [if_pos h]
      exact iff_of_false (fun hc => Except.noConfusion hc) (fun hn => hn h)
    · rw [if_neg h]
      exact iff_of_true rfl h
  · rw [check_temperature_offset_read_eq]
    by_cases h : d.getD 2 0 = crc8 [d.getD 0 0, d.getD 1 0]
    · rw [if_pos h]
      exact iff_of_false (fun hc => Except.noConfusion hc) (fun hn => hn h)
    · rw [if_neg h]
      exact iff_of_true rfl h
  · rw [get_forced_value_read_eq]
    by_cases h : d.getD 2 0 = crc8 [d.getD 0 0, d.getD 1 0]
    · rw [if_pos h]
      exact iff_of_false (fun hc => Except.noConfusion hc) (fun hn => hn h)
    · rw [if_neg h]
      exact iff_of_true rfl h

/-- C4 witness: concrete instances of the fail-fast behaviour — a failed
write on `check_firmware` yields `ComunicationError` without a read, and a
successful read of `[0, 0, 0]` (whose checksum byte does not match) yields
`ChecksumError`. -/
theorem fail_fast_protocol_witness :
    check_firmware false none = (.error .ComunicationError, [.write [0xd1, 0x00]]) ∧
      (check_firmware true (some [0, 0, 0])).1 = .error .ChecksumError :=
  ⟨fail_fast_protocol.1.1 none,
    (fail_fast_protocol.1.2.2.2 [0, 0, 0]).mpr (by decide)⟩

/-- C5: `set_measurements_interval` writes exactly the 5-byte frame
`[0x46, 0x00]` followed by the big-endian bytes of the seconds argument and
their CRC-8; at `seconds = 2` the frame is
`[0x46, 0x00, 0x00, 0x02, crc8 [0x00, 0x02]]`. -/
theorem set_measurements_interval_frame (seconds : Nat) (wOk : Bool)
    (hs : seconds < 65536) :
    (set_measurements_interval seconds wOk).2 =
      [.write [0x46, 0x00, seconds / 256, seconds % 256,
        crc8 [seconds / 256, seconds % 256]]] ∧
    (set_measurements_interval 2 wOk).2 =
      [.write [0x46, 0x00, 0x00, 0x02, crc8 [0x00, 0x02]]] := by
  constructor
  · have hhi : (seconds >>> 8) % 256 = seconds / 256 := by
      rw [Nat.shiftRight_eq_div_pow]
      exact Nat.mod_eq_of_lt (by omega)
    have hbuf : (set_measurements_interval seconds wOk).2
        = [.write [0x46, 0x00, (seconds >>> 8) % 256, seconds % 256,
            crc8 [(seconds >>> 8) % 256, seconds % 256]]] := by
      cases wOk <;> rfl
    rw [hbuf, hhi]
  · cases wOk <;> rfl

/-- C5 witness at `seconds = 2` with a successful write. -/
theorem set_measurements_interval_frame_witness :
    2 < 65536 ∧
      ((set_measurements_interval 2 true).2 =
        [.write [0x46, 0x00, 2 / 256, 2 % 256, crc8 [2 / 256, 2 % 256]]] ∧
      (set_measurements_interval 2 true).2 =
        [.write [0x46, 0x00, 0x00, 0x02, crc8 [0x00, 0x02]]]) :=
  ⟨by norm_num, set_measurements_interval_frame 2 true (by norm_num)⟩

/-- C6: given a passing checksum, `get_data_ready` returns `true` exactly
when the low data byte is `0x01`, regardless of the high data byte. -/
theorem get_data_ready_low_byte (d : List Nat)
    (h : crc8 [d.getD 0 0, d.getD 1 0] = d.getD 2 0) :
    (get_data_ready true (some d)).1 = .ok (decide (d.getD 1 0 = 0x01)) := by
  rw [get_data_ready_read_eq, if_pos h]
  by_cases h2 : d.getD 1 0 = 0x01
  · rw [if_pos h2, h2]; rfl
  · rw [if_neg h2, decide_eq_false h2]

/-- C6 witness: a group with low byte `0x01` (and a high byte that is not
`0x01`) yields `true`. -/
theorem get_data_ready_low_byte_witness :
    (get_data_ready true (some [0x00, 0x01, crc8 [0x00, 0x01]])).1 = .ok true := by
  have h := get_data_ready_low_byte [0x00, 0x01, crc8 [0x00, 0x01]] rfl
  simpa using h

/-- C8: `set_self_calibration` is extensionally identical to
`get_self_calibration_status`: each writes the same 2-byte command
`[0x53, 0x06]` as its first bus action, and on every transport behaviour
they return the same result and the same trace. -/
theorem set_self_calibration_eq_get :
    (∀ wOk rRes, set_self_calibration wOk rRes = get_self_calibration_status wOk rRes) ∧
    (∀ wOk rRes, (set_self_calibration wOk rRes).2.head? = some (.write [0x53, 0x06])) ∧
    (∀ wOk rRes, (get_self_calibration_status wOk rRes).2.head?
      = some (.write [0x53, 0x06])) := by
  refine ⟨fun wOk rRes => rfl, fun wOk rRes => ?_, fun wOk rRes => ?_⟩ <;>
    cases wOk <;> cases rRes <;> rfl

/-- C10: every command-only operation returns `Ok` when the transport write
succeeds and `ComunicationError` when it fails — in particular it can never
produce `ChecksumError` or `Io`. -/
theorem write_only_ops (s a o f : Nat) (wOk : Bool) :
    (trigger_cont_measurements wOk).1
        = (if wOk then .ok () else .error .ComunicationError) ∧
    (stop_cont_measurements wOk).1
        = (if wOk then .ok () else .error .ComunicationError) ∧
    (set_measurements_interval s wOk).1
        = (if wOk then .ok () else .error .ComunicationError) ∧
    (soft_reset wOk).1 = (if wOk then .ok () else .error .ComunicationError) ∧
    (set_altitude a wOk).1 = (if wOk then .ok () else .error .ComunicationError) ∧
    (set_temperature_offset o wOk).1
        = (if wOk then .ok () else .error .ComunicationError) ∧
    (set_force_recalibration_value f wOk).1
        = (if wOk then .ok () else .error .ComunicationError) := by
  cases wOk <;> exact ⟨rfl, rfl, rfl, rfl, rfl, rfl, rfl⟩

end Scd30
